import Mathlib

/-!
Shallow embedding of `onebot/plugins/users.py` (the `User` class and the
`UsersPlugin` membership registry).

Modelling conventions:
- A Python `set` of channel names is a duplicate-free `List String` kept in
  insertion order; `set.add` is `setAdd` (a no-op when the element is present)
  and `set.remove` is `setRemove`, which returns `none` when the element is
  absent (Python raises `KeyError` there).
- A Python `dict` (insertion ordered) is an association list
  `List (String × User)`; assignment to an existing key keeps its position,
  assignment to a fresh key appends, `del` removes the entry.
- An event handler that can raise an exception returns `HOut`: the registry
  state as mutated up to the point of the raise, together with a `raised`
  flag.  Python mutates objects in place, so a raise does not roll anything
  back; `HOut.state` is exactly the state the Python objects are left in.
- `irc3.utils.IrcString` masks (`nick!user@host`) are modelled by `Mask`
  carrying `nick` (before the `!`) and `host` (everything after the `!`),
  matching `IrcString.nick` / `IrcString.host`.
- `User.database` and the settings lookups live in an external collaborator
  (the database plugin); they never influence the registry state and are
  omitted.  The identity key `_id` is kept.
-/

/-- A parsed IRC mask `nick!user@host`: `nick` is the part before `!`,
`host` the part after it (as in `irc3.utils.IrcString`). -/
structure Mask where
  nick : String
  host : String
deriving Repr, DecidableEq

/-- Python `set.add` on an insertion-ordered duplicate-free list. -/
def setAdd (s : List String) (x : String) : List String :=
  if x ∈ s then s else s ++ [x]

/-- Python `set.remove`: `none` models the `KeyError` raised when the
element is absent. -/
def setRemove (s : List String) (x : String) : Option (List String) :=
  if x ∈ s then some (s.filter (fun y => y ≠ x)) else none

/-- The `User` object of `onebot.plugins.users` (settings/database fields
omitted; they do not touch registry state). -/
structure User where
  nick : String
  host : String
  channels : List String
  _id : String
deriving Repr, DecidableEq

/-- `User.join`: `self.channels.add(channel)`. -/
def User.join (u : User) (channel : String) : User :=
  { u with channels := setAdd u.channels channel }

/-- `User.part`: `self.channels.remove(channel)`; `none` is the
`KeyError` when the channel is not in the set. -/
def User.part (u : User) (channel : String) : Option User :=
  (setRemove u.channels channel).map (fun cs => { u with channels := cs })

/-- `User.still_in_channels`: `len(self.channels) > 0`. -/
def User.still_in_channels (u : User) : Bool :=
  u.channels.length > 0

/-- `User.getid`. -/
def User.getid (u : User) : String :=
  u._id

/-- The registry's nick → User dict. -/
abbrev UserDict := List (String × User)

/-- Python dict lookup `d.get(k)` / `d[k]` (dict keys are unique, so the
first matching entry is the entry). -/
def dictGet (d : UserDict) (k : String) : Option User :=
  match d with
  | [] => none
  | p :: rest => if p.1 = k then some p.2 else dictGet rest k

/-- Python dict assignment `d[k] = v`: overwrite in place when the key is
present (keeping its insertion position), append otherwise. -/
def dictSet (d : UserDict) (k : String) (v : User) : UserDict :=
  match d with
  | [] => [(k, v)]
  | p :: rest => if p.1 = k then (p.1, v) :: rest else p :: dictSet rest k v

/-- In-place mutation of the object stored at key `k` (Python aliasing:
mutating the looked-up `User` object mutates the dict's value). -/
def dictUpdate (d : UserDict) (k : String) (f : User → User) : UserDict :=
  match d with
  | [] => []
  | p :: rest => if p.1 = k then (p.1, f p.2) :: rest else p :: dictUpdate rest k f

/-- Python `del d[k]` (a no-op when the key is absent, which the source
always guards against or tolerates). -/
def dictDel (d : UserDict) (k : String) : UserDict :=
  match d with
  | [] => []
  | p :: rest => if p.1 = k then dictDel rest k else p :: dictDel rest k

/-- The mutable state of `UsersPlugin`: the bot's own nick, the configured
`identify_by` method, `self.channels` and `self.active_users`. -/
structure RegistryState where
  botNick : String
  identifying_method : String
  channels : List String
  active_users : UserDict
deriving Repr, DecidableEq

/-- Outcome of one handler: the state as left by the Python objects, plus
whether an exception was raised (and propagated out of the handler). -/
structure HOut where
  state : RegistryState
  raised : Bool
deriving Repr, DecidableEq

/-- `UsersPlugin.create_user`: builds a `User` when `identifying_method`
is `'mask'` (`_id = mask.host`); any other configured method raises
`ValueError`, modelled as `none`. -/
def create_user (s : RegistryState) (mask : Mask) (channels : List String) :
    Option User :=
  if s.identifying_method = "mask" then
    some { nick := mask.nick, host := mask.host,
           channels := channels.foldl setAdd [], _id := mask.host }
  else
    none

/-- `UsersPlugin.connection_lost`: reset both maps to empty. -/
def connection_lost (s : RegistryState) : RegistryState :=
  { s with channels := [], active_users := [] }

/-- The state built by `UsersPlugin.__init__` for a given configured
`identify_by` value (it stores the method and calls `connection_lost`). -/
def initState (botNick identify_by : String) : RegistryState :=
  { botNick := botNick, identifying_method := identify_by,
    channels := [], active_users := [] }

/-- `UsersPlugin.__init__` as a fallible constructor: the Python body
contains no raise path at all (`config.get` defaults to `'mask'`,
`connection_lost` cannot fail), so it is always `Except.ok`. -/
def plugin_init (botNick : String) (identify_by : Option String) :
    Except String RegistryState :=
  Except.ok (initState botNick (identify_by.getD "mask"))

/-- `UsersPlugin.get_user`: `self.active_users.get(nick, None)`. -/
def get_user (s : RegistryState) (nick : String) : Option User :=
  dictGet s.active_users nick

/-- `UsersPlugin.join`: add the channel to `self.channels`, create the
user when unknown (which can raise `ValueError` from `create_user`,
after the channel was already added), then `join` the user object. -/
def UsersPlugin.join (s : RegistryState) (nick : String) (mask : Mask)
    (channel : String) : HOut :=
  let s1 := { s with channels := setAdd s.channels channel }
  match dictGet s1.active_users nick with
  | none =>
    match create_user s1 mask [channel] with
    | none => ⟨s1, true⟩
    | some u =>
      let au := dictSet s1.active_users nick u
      ⟨{ s1 with active_users := dictUpdate au nick (fun w => User.join w channel) },
        false⟩
  | some _ =>
    ⟨{ s1 with active_users :=
        dictUpdate s1.active_users nick (fun w => User.join w channel) }, false⟩

/-- `UsersPlugin.quit`: on the bot's own nick reset everything, then drop
the record for `nick` when present. -/
def UsersPlugin.quit (s : RegistryState) (nick : String) : RegistryState :=
  let s1 := if nick = s.botNick then connection_lost s else s
  { s1 with active_users := dictDel s1.active_users nick }

/-- The `for (n, user) in self.active_users.copy().items():` loop inside
`UsersPlugin.part` for the bot's own nick.  The first argument list is the
snapshot taken by `.copy()`; the state evolves alongside.  Note that
`self.channels.remove(kwargs['channel'])` is executed INSIDE the loop,
exactly as in the source. -/
def UsersPlugin.partLoop (channel : String) :
    List (String × User) → RegistryState → HOut
  | [], s => ⟨s, false⟩
  | (n, user) :: rest, s =>
    match User.part user channel with
    | none => ⟨s, true⟩
    | some u' =>
      let s1 := { s with active_users := dictUpdate s.active_users n (fun _ => u') }
      let s2 := if User.still_in_channels u' then s1
                else { s1 with active_users := dictDel s1.active_users n }
      match setRemove s2.channels channel with
      | none => ⟨s2, true⟩
      | some cs => UsersPlugin.partLoop channel rest { s2 with channels := cs }

/-- `UsersPlugin.part`: the self-departure loop when `nick` is the bot's
own nick (an exception there propagates, skipping the rest), then the
per-user part with destruction of emptied records. -/
def UsersPlugin.part (s : RegistryState) (nick : String) (channel : String) :
    HOut :=
  let r := if nick = s.botNick then UsersPlugin.partLoop channel s.active_users s
           else ⟨s, false⟩
  if r.raised then r
  else
    match dictGet r.state.active_users nick with
    | none => ⟨r.state, false⟩
    | some u =>
      match User.part u channel with
      | none => ⟨r.state, true⟩
      | some u' =>
        let s2 := { r.state with
          active_users := dictUpdate r.state.active_users nick (fun _ => u') }
        if User.still_in_channels u' then ⟨s2, false⟩
        else ⟨{ s2 with active_users := dictDel s2.active_users nick }, false⟩

/-- `UsersPlugin.on_kick`: delegates to `self.part(target.nick, target, **kwargs)`. -/
def UsersPlugin.on_kick (s : RegistryState) (kicker : Mask) (target : Mask)
    (channel : String) : HOut :=
  UsersPlugin.part s target.nick channel

/-- `UsersPlugin.on_new_nick`: when the old nick is tracked, mutate the
record's nick in place (visible through the old key by aliasing), store it
under the new key, then delete the old key. -/
def UsersPlugin.on_new_nick (s : RegistryState) (nick : Mask)
    (new_nick : String) : RegistryState :=
  match dictGet s.active_users nick.nick with
  | none => s
  | some user =>
    let user' := { user with nick := new_nick }
    let au1 := dictUpdate s.active_users nick.nick (fun _ => user')
    let au2 := dictSet au1 new_nick user'
    { s with active_users := dictDel au2 nick.nick }

/-- `UsersPlugin.on_privmsg`: ignored unless the target is a tracked
channel; otherwise lazy discovery of the sender. -/
def UsersPlugin.on_privmsg (s : RegistryState) (mask : Mask)
    (target : String) : HOut :=
  if target ∈ s.channels then
    match dictGet s.active_users mask.nick with
    | none =>
      match create_user s mask [target] with
      | none => ⟨s, true⟩
      | some u => ⟨{ s with active_users := dictSet s.active_users mask.nick u }, false⟩
    | some _ =>
      ⟨{ s with active_users :=
          dictUpdate s.active_users mask.nick (fun w => User.join w target) }, false⟩
  else ⟨s, false⟩

/-- `UsersPlugin.on_who`: ignored for channels not in `self.channels`;
otherwise create or join, with the mask rebuilt as
`'{nick}!{username}@{server}'`. -/
def UsersPlugin.on_who (s : RegistryState) (channel nick username server : String) :
    HOut :=
  if channel ∈ s.channels then
    match dictGet s.active_users nick with
    | none =>
      match create_user s { nick := nick, host := username ++ "@" ++ server }
              [channel] with
      | none => ⟨s, true⟩
      | some u => ⟨{ s with active_users := dictSet s.active_users nick u }, false⟩
    | some _ =>
      ⟨{ s with active_users :=
          dictUpdate s.active_users nick (fun w => User.join w channel) }, false⟩
  else ⟨s, false⟩

/-- The spec's channel-containment invariant: every channel recorded in a
tracked user's set is also in the registry's tracked set. -/
def channelInv (s : RegistryState) : Prop :=
  ∀ p ∈ s.active_users, ∀ c ∈ p.2.channels, c ∈ s.channels

instance (s : RegistryState) : Decidable (channelInv s) := by
  unfold channelInv; infer_instance

/-- Registry states reachable from a freshly constructed plugin by any
sequence of the event handlers (keeping the state a handler leaves behind
even when it raised, as the Python objects survive the exception). -/
inductive Reachable : RegistryState → Prop
  | init (botNick identify_by : String) : Reachable (initState botNick identify_by)
  | joinStep {s} (nick : String) (mask : Mask) (channel : String) :
      Reachable s → Reachable (UsersPlugin.join s nick mask channel).state
  | partStep {s} (nick channel : String) :
      Reachable s → Reachable (UsersPlugin.part s nick channel).state
  | quitStep {s} (nick : String) :
      Reachable s → Reachable (UsersPlugin.quit s nick)
  | kickStep {s} (kicker target : Mask) (channel : String) :
      Reachable s → Reachable (UsersPlugin.on_kick s kicker target channel).state
  | renameStep {s} (nick : Mask) (new_nick : String) :
      Reachable s → Reachable (UsersPlugin.on_new_nick s nick new_nick)
  | privmsgStep {s} (mask : Mask) (target : String) :
      Reachable s → Reachable (UsersPlugin.on_privmsg s mask target).state
  | whoStep {s} (channel nick username server : String) :
      Reachable s → Reachable (UsersPlugin.on_who s channel nick username server).state
  | connStep {s} : Reachable s → Reachable (connection_lost s)

/-! ### Helper lemmas about the dict and set models -/

theorem dictGet_dictUpdate_self {d : UserDict} {k : String} {u : User}
    (f : User → User) (h : dictGet d k = some u) :
    dictGet (dictUpdate d k f) k = some (f u) := by
  induction d with
  | nil => simp [dictGet] at h
  | cons p rest ih =>
    by_cases hk : p.1 = k
    · simp [dictGet, hk] at h
      simp [dictUpdate, dictGet, hk, h]
    · simp [dictGet, hk] at h
      simp [dictUpdate, dictGet, hk, ih h]

theorem dictGet_dictUpdate_ne {k k' : String} (d : UserDict)
    (f : User → User) (h : k' ≠ k) :
    dictGet (dictUpdate d k f) k' = dictGet d k' := by
  induction d with
  | nil => simp [dictUpdate]
  | cons p rest ih =>
    by_cases hk : p.1 = k
    · simp [dictUpdate, dictGet, hk, Ne.symm h]
    · by_cases hk' : p.1 = k' <;> simp [dictUpdate, dictGet, hk, hk', h, ih]

theorem dictGet_dictSet_self (d : UserDict) (k : String) (v : User) :
    dictGet (dictSet d k v) k = some v := by
  induction d with
  | nil => simp [dictSet, dictGet]
  | cons p rest ih =>
    by_cases hk : p.1 = k <;> simp [dictSet, dictGet, hk, ih]

theorem dictGet_dictDel_self (d : UserDict) (k : String) :
    dictGet (dictDel d k) k = none := by
  induction d with
  | nil => rfl
  | cons p rest ih =>
    by_cases hk : p.1 = k <;> simp [dictDel, dictGet, hk, ih]

theorem dictGet_dictDel_ne {k k' : String} (d : UserDict) (h : k' ≠ k) :
    dictGet (dictDel d k) k' = dictGet d k' := by
  induction d with
  | nil => rfl
  | cons p rest ih =>
    by_cases hk : p.1 = k
    · simp [dictDel, dictGet, hk, Ne.symm h, ih]
    · by_cases hk' : p.1 = k' <;> simp [dictDel, dictGet, hk, hk', h, ih]

theorem dictUpdate_dictUpdate (d : UserDict) (k : String) (f g : User → User) :
    dictUpdate (dictUpdate d k f) k g = dictUpdate d k (fun v => g (f v)) := by
  induction d with
  | nil => rfl
  | cons p rest ih =>
    by_cases hk : p.1 = k <;> simp [dictUpdate, hk, ih]

theorem setAdd_idem (s : List String) (x : String) :
    setAdd (setAdd s x) x = setAdd s x := by
  unfold setAdd
  by_cases h : x ∈ s <;> simp [h]

theorem mem_setAdd_self (s : List String) (x : String) : x ∈ setAdd s x := by
  unfold setAdd
  by_cases h : x ∈ s <;> simp [h]

theorem User.join_idem (u : User) (ch : String) :
    User.join (User.join u ch) ch = User.join u ch := by
  simp [User.join, setAdd_idem]

theorem count_setAdd_self {s : List String} (x : String) (h : s.Nodup) :
    (setAdd s x).count x = 1 := by
  unfold setAdd
  by_cases hx : x ∈ s
  · simpa [hx] using List.count_eq_one_of_mem h hx
  · simp [hx, List.count_append, List.count_eq_zero.mpr hx]

/-! ### Claim theorems -/

/-- Claim C9: processing a kick is exactly processing a part for the kicked
target; the kicking party's identity has no effect on the resulting state
(the handler delegates to `part(target.nick, target, **kwargs)`). -/
theorem kick_equals_part (s : RegistryState) (kicker target : Mask)
    (channel : String) :
    UsersPlugin.on_kick s kicker target channel
      = UsersPlugin.part s target.nick channel := rfl

/-- Claim C1: on the registry with `u1` in `{#a}` and `u2` in `{#a, #b}`,
`part(botNick, "#a")` does end with `u1` absent, `u2` holding exactly
`{#b}`, and `"#a"` gone from the tracked set — but the handler raises
(`self.channels.remove` runs inside the per-user loop and hits a
`KeyError` on the second iteration), contradicting the no-error part of
the claim. -/
theorem part_self_departure_cascade_raises :
    (UsersPlugin.part
      { botNick := "bot", identifying_method := "mask", channels := ["#a", "#b"],
        active_users :=
          [("u1", { nick := "u1", host := "h1", channels := ["#a"], _id := "h1" }),
           ("u2", { nick := "u2", host := "h2", channels := ["#a", "#b"], _id := "h2" })] }
      "bot" "#a").raised = true ∧
    get_user (UsersPlugin.part
      { botNick := "bot", identifying_method := "mask", channels := ["#a", "#b"],
        active_users :=
          [("u1", { nick := "u1", host := "h1", channels := ["#a"], _id := "h1" }),
           ("u2", { nick := "u2", host := "h2", channels := ["#a", "#b"], _id := "h2" })] }
      "bot" "#a").state "u1" = none ∧
    (get_user (UsersPlugin.part
      { botNick := "bot", identifying_method := "mask", channels := ["#a", "#b"],
        active_users :=
          [("u1", { nick := "u1", host := "h1", channels := ["#a"], _id := "h1" }),
           ("u2", { nick := "u2", host := "h2", channels := ["#a", "#b"], _id := "h2" })] }
      "bot" "#a").state "u2").map User.channels = some ["#b"] ∧
    (UsersPlugin.part
      { botNick := "bot", identifying_method := "mask", channels := ["#a", "#b"],
        active_users :=
          [("u1", { nick := "u1", host := "h1", channels := ["#a"], _id := "h1" }),
           ("u2", { nick := "u2", host := "h2", channels := ["#a", "#b"], _id := "h2" })] }
      "bot" "#a").state.channels = ["#b"] := by
  decide

/-- Claim C5: the channel-containment invariant is violated on a reachable
state: after three users join `#a` and the bot parts `#a`, the loop raises
mid-way and leaves `u3` holding `#a` while `#a` is no longer tracked. -/
theorem channel_containment_invariant_violated :
    Reachable (UsersPlugin.part
      (UsersPlugin.join
        (UsersPlugin.join
          (UsersPlugin.join (initState "bot" "mask") "u1" ⟨"u1", "h1"⟩ "#a").state
          "u2" ⟨"u2", "h2"⟩ "#a").state
        "u3" ⟨"u3", "h3"⟩ "#a").state
      "bot" "#a").state ∧
    ¬ channelInv (UsersPlugin.part
      (UsersPlugin.join
        (UsersPlugin.join
          (UsersPlugin.join (initState "bot" "mask") "u1" ⟨"u1", "h1"⟩ "#a").state
          "u2" ⟨"u2", "h2"⟩ "#a").state
        "u3" ⟨"u3", "h3"⟩ "#a").state
      "bot" "#a").state :=
  ⟨Reachable.partStep _ _ (Reachable.joinStep _ _ _ (Reachable.joinStep _ _ _
      (Reachable.joinStep _ _ _ (Reachable.init "bot" "mask")))),
    by decide⟩

/-- Claim C6: a WHO reply for a channel that is not currently tracked is
ignored entirely: the handler returns with the registry unchanged and no
exception, so no record is created and no record gains the channel. -/
theorem who_reply_gated_on_untracked_channel (s : RegistryState)
    (channel nick username server : String) (h : channel ∉ s.channels) :
    UsersPlugin.on_who s channel nick username server = ⟨s, false⟩ := by
  simp [UsersPlugin.on_who, h]

/-- Witness for C6 on a freshly constructed registry. -/
theorem who_reply_gated_on_untracked_channel_witness :
    ("#c" ∉ (initState "bot" "mask").channels) ∧
    UsersPlugin.on_who (initState "bot" "mask") "#c" "carol" "u" "host"
      = ⟨initState "bot" "mask", false⟩ :=
  ⟨by decide, who_reply_gated_on_untracked_channel _ _ _ _ _ (by decide)⟩

/-- Claim C3 counterexample: constructing the plugin with the invalid
identification method `"by-host"` raises nothing (`__init__` has no raise
path); the `ValueError` only appears later, at event time, when the first
user record is created — so the configuration error is NOT raised at
construction/startup time as claimed. -/
theorem plugin_init_invalid_method_no_startup_error :
    plugin_init "bot" (some "by-host") = Except.ok (initState "bot" "by-host") ∧
    (UsersPlugin.join (initState "bot" "by-host") "alice" ⟨"alice", "a@h"⟩
      "#a").raised = true :=
  ⟨rfl, by decide⟩

/-- Claim C3 as amended: for every configured `identify_by` value other
than the single valid method `"mask"`, construction itself succeeds
without error, and the fatal configuration error surfaces lazily at event
time, when a user is first created (here: the first join of an unknown
nick raises). -/
theorem identify_by_error_lazy_at_event_time (botNick method nick : String)
    (mask : Mask) (channel : String) (h : method ≠ "mask") :
    plugin_init botNick (some method) = Except.ok (initState botNick method) ∧
    (UsersPlugin.join (initState botNick method) nick mask channel).raised
      = true := by
  refine ⟨rfl, ?_⟩
  simp [UsersPlugin.join, initState, dictGet, create_user, h]

/-- Witness for the amended C3. -/
theorem identify_by_error_lazy_at_event_time_witness :
    ("by-host" ≠ "mask") ∧
    (plugin_init "bot" (some "by-host") = Except.ok (initState "bot" "by-host") ∧
     (UsersPlugin.join (initState "bot" "by-host") "alice" ⟨"alice", "a@h"⟩
       "#a").raised = true) :=
  ⟨by decide,
    identify_by_error_lazy_at_event_time "bot" "by-host" "alice" ⟨"alice", "a@h"⟩
      "#a" (by decide)⟩

/-- Claim C10: a rename event whose old and new nick coincide removes the
tracked nick from `active_users` entirely (the handler stores the record
back under the same key and then deletes that key), so `get_user` returns
absent afterwards. -/
theorem renamed_same_nick_drops_user (s : RegistryState) (nick : Mask)
    (u : User) (h : get_user s nick.nick = some u) :
    get_user (UsersPlugin.on_new_nick s nick nick.nick) nick.nick = none := by
  unfold get_user at h
  simp [UsersPlugin.on_new_nick, get_user, h, dictGet_dictDel_self]

/-- Witness for C10. -/
theorem renamed_same_nick_drops_user_witness :
    (get_user
      { botNick := "bot", identifying_method := "mask", channels := ["#a"],
        active_users :=
          [("alice", { nick := "alice", host := "h", channels := ["#a"], _id := "h" })] }
      (Mask.mk "alice" "h").nick
      = some { nick := "alice", host := "h", channels := ["#a"], _id := "h" }) ∧
    get_user (UsersPlugin.on_new_nick
      { botNick := "bot", identifying_method := "mask", channels := ["#a"],
        active_users :=
          [("alice", { nick := "alice", host := "h", channels := ["#a"], _id := "h" })] }
      (Mask.mk "alice" "h") (Mask.mk "alice" "h").nick)
      (Mask.mk "alice" "h").nick = none :=
  ⟨by decide,
    renamed_same_nick_drops_user
      { botNick := "bot", identifying_method := "mask", channels := ["#a"],
        active_users :=
          [("alice", { nick := "alice", host := "h", channels := ["#a"], _id := "h" })] }
      (Mask.mk "alice" "h")
      { nick := "alice", host := "h", channels := ["#a"], _id := "h" }
      (by decide)⟩

/-- Claim C4: renaming a tracked nick to an untracked one re-keys the same
record: afterwards the new nick resolves to the old record with only its
displayed nick changed (host, channel set and the identity key `_id` — and
hence all settings lookups — untouched), and the old nick resolves to
absent. -/
theorem renamed_preserves_identity (s : RegistryState) (nick : Mask)
    (new_nick : String) (u : User)
    (hold : get_user s nick.nick = some u)
    (hnew : get_user s new_nick = none) :
    get_user (UsersPlugin.on_new_nick s nick new_nick) new_nick
      = some { u with nick := new_nick } ∧
    User.getid { u with nick := new_nick } = User.getid u ∧
    get_user (UsersPlugin.on_new_nick s nick new_nick) nick.nick = none := by
  have hne : new_nick ≠ nick.nick := by
    intro he
    rw [← he, hnew] at hold
    exact Option.noConfusion hold
  unfold get_user at hold hnew ⊢
  simp only [UsersPlugin.on_new_nick, hold]
  refine ⟨?_, rfl, ?_⟩
  · rw [dictGet_dictDel_ne _ hne, dictGet_dictSet_self]
  · exact dictGet_dictDel_self _ _

/-- Witness for C4. -/
theorem renamed_preserves_identity_witness :
    (get_user
      { botNick := "bot", identifying_method := "mask", channels := ["#a"],
        active_users :=
          [("alice", { nick := "alice", host := "h", channels := ["#a"], _id := "h" })] }
      (Mask.mk "alice" "h").nick
      = some { nick := "alice", host := "h", channels := ["#a"], _id := "h" } ∧
     get_user
      { botNick := "bot", identifying_method := "mask", channels := ["#a"],
        active_users :=
          [("alice", { nick := "alice", host := "h", channels := ["#a"], _id := "h" })] }
      "bob" = none) ∧
    (get_user (UsersPlugin.on_new_nick
        { botNick := "bot", identifying_method := "mask", channels := ["#a"],
          active_users :=
            [("alice", { nick := "alice", host := "h", channels := ["#a"], _id := "h" })] }
        (Mask.mk "alice" "h") "bob") "bob"
      = some { nick := "bob", host := "h", channels := ["#a"], _id := "h" } ∧
     User.getid { nick := "bob", host := "h", channels := ["#a"], _id := "h" }
      = User.getid { nick := "alice", host := "h", channels := ["#a"], _id := "h" } ∧
     get_user (UsersPlugin.on_new_nick
        { botNick := "bot", identifying_method := "mask", channels := ["#a"],
          active_users :=
            [("alice", { nick := "alice", host := "h", channels := ["#a"], _id := "h" })] }
        (Mask.mk "alice" "h") "bob") (Mask.mk "alice" "h").nick = none) :=
  ⟨⟨by decide, by decide⟩,
    renamed_preserves_identity
      { botNick := "bot", identifying_method := "mask", channels := ["#a"],
        active_users :=
          [("alice", { nick := "alice", host := "h", channels := ["#a"], _id := "h" })] }
      (Mask.mk "alice" "h") "bob"
      { nick := "alice", host := "h", channels := ["#a"], _id := "h" }
      (by decide) (by decide)⟩

/-- Claim C7: `connection_lost` (and `quit` with the bot's own nick, which
delegates to it) resets the registry to the empty state: both maps are
empty, every `get_user` returns absent, subsequent `part` and WHO events
are silent no-ops, and a fresh `join` re-establishes the channel. -/
theorem connection_reset_clears_everything (s : RegistryState)
    (nick ch n username server : String) (mask : Mask) :
    (connection_lost s).channels = [] ∧
    (connection_lost s).active_users = [] ∧
    UsersPlugin.quit s s.botNick = connection_lost s ∧
    get_user (connection_lost s) nick = none ∧
    UsersPlugin.part (connection_lost s) nick ch = ⟨connection_lost s, false⟩ ∧
    UsersPlugin.on_who (connection_lost s) ch n username server
      = ⟨connection_lost s, false⟩ ∧
    (UsersPlugin.join (connection_lost s) nick mask ch).state.channels = [ch] := by
  refine ⟨rfl, rfl, ?_, rfl, ?_, ?_, ?_⟩
  · simp [UsersPlugin.quit, connection_lost, dictDel]
  · by_cases hb : nick = s.botNick <;>
      simp [UsersPlugin.part, UsersPlugin.partLoop, connection_lost, dictGet, hb]
  · simp [UsersPlugin.on_who, connection_lost]
  · by_cases hm : s.identifying_method = "mask" <;>
      simp [UsersPlugin.join, connection_lost, dictGet, create_user, setAdd, hm]

/-- Claim C8: joining is idempotent: a second `join` with the same
`(nick, channel)` leaves the registry exactly as after the first, and the
member's channel set after the join is the original set extended with the
channel, containing exactly one occurrence of it. -/
theorem join_idempotent (s : RegistryState) (nick : String) (mask : Mask)
    (ch : String) (u : User) (hu : get_user s nick = some u)
    (hnd : u.channels.Nodup) :
    UsersPlugin.join (UsersPlugin.join s nick mask ch).state nick mask ch
      = UsersPlugin.join s nick mask ch ∧
    get_user (UsersPlugin.join s nick mask ch).state nick
      = some (User.join u ch) ∧
    (User.join u ch).channels = setAdd u.channels ch ∧
    (User.join u ch).channels.count ch = 1 := by
  unfold get_user at hu ⊢
  have h2 : dictGet (dictUpdate s.active_users nick (fun w => User.join w ch)) nick
      = some (User.join u ch) := dictGet_dictUpdate_self _ hu
  have h1 : UsersPlugin.join s nick mask ch =
      ⟨{ s with
          channels := setAdd s.channels ch,
          active_users := dictUpdate s.active_users nick (fun w => User.join w ch) },
        false⟩ := by
    simp [UsersPlugin.join, hu]
  refine ⟨?_, ?_, rfl, ?_⟩
  · rw [h1]
    simp [UsersPlugin.join, h2, setAdd_idem, dictUpdate_dictUpdate, User.join_idem]
  · rw [h1]
    exact h2
  · show (setAdd u.channels ch).count ch = 1
    exact count_setAdd_self ch hnd

/-- Witness for C8. -/
theorem join_idempotent_witness :
    (get_user
      { botNick := "bot", identifying_method := "mask", channels := ["#a"],
        active_users :=
          [("bob", { nick := "bob", host := "h", channels := ["#a"], _id := "h" })] }
      "bob" = some { nick := "bob", host := "h", channels := ["#a"], _id := "h" } ∧
     ([ "#a" ] : List String).Nodup) ∧
    (UsersPlugin.join (UsersPlugin.join
        { botNick := "bot", identifying_method := "mask", channels := ["#a"],
          active_users :=
            [("bob", { nick := "bob", host := "h", channels := ["#a"], _id := "h" })] }
        "bob" (Mask.mk "bob" "h") "#b").state "bob" (Mask.mk "bob" "h") "#b"
      = UsersPlugin.join
        { botNick := "bot", identifying_method := "mask", channels := ["#a"],
          active_users :=
            [("bob", { nick := "bob", host := "h", channels := ["#a"], _id := "h" })] }
        "bob" (Mask.mk "bob" "h") "#b" ∧
     get_user (UsersPlugin.join
        { botNick := "bot", identifying_method := "mask", channels := ["#a"],
          active_users :=
            [("bob", { nick := "bob", host := "h", channels := ["#a"], _id := "h" })] }
        "bob" (Mask.mk "bob" "h") "#b").state "bob"
      = some (User.join { nick := "bob", host := "h", channels := ["#a"], _id := "h" } "#b") ∧
     (User.join { nick := "bob", host := "h", channels := ["#a"], _id := "h" } "#b").channels
      = setAdd ["#a"] "#b" ∧
     (User.join { nick := "bob", host := "h", channels := ["#a"], _id := "h" } "#b").channels.count "#b" = 1) :=
  ⟨⟨by decide, by decide⟩,
    join_idempotent
      { botNick := "bot", identifying_method := "mask", channels := ["#a"],
        active_users :=
          [("bob", { nick := "bob", host := "h", channels := ["#a"], _id := "h" })] }
      "bob" (Mask.mk "bob" "h") "#b"
      { nick := "bob", host := "h", channels := ["#a"], _id := "h" }
      (by decide) (by decide)⟩

/-- Loop invariant for the self-departure loop of `UsersPlugin.part`: if the
snapshot still contains the entry of a user who does not occupy `channel`,
and the live dict maps that user's nick to the same record, the loop raises
before reaching past that user and never touches that user's record. -/
theorem partLoop_missing_channel (channel target : String) (u : User)
    (hch : channel ∉ u.channels) :
    ∀ (l : List (String × User)) (s : RegistryState),
      dictGet l target = some u →
      dictGet s.active_users target = some u →
      (UsersPlugin.partLoop channel l s).raised = true ∧
      dictGet (UsersPlugin.partLoop channel l s).state.active_users target
        = some u := by
  intro l
  induction l with
  | nil => intro s hl _; simp [dictGet] at hl
  | cons p rest ih =>
    intro s hl hs
    obtain ⟨n, w⟩ := p
    by_cases hn : n = target
    · subst hn
      have hw : w = u := by simpa [dictGet] using hl
      subst hw
      have hpartu : User.part w channel = none := by
        simp [User.part, setRemove, hch]
      simp [UsersPlugin.partLoop, hpartu, hs]
    · have hl' : dictGet rest target = some u := by
        simpa [dictGet, hn] using hl
      cases hpart : User.part w channel with
      | none => simp [UsersPlugin.partLoop, hpart, hs]
      | some w' =>
        have hsu : dictGet (dictUpdate s.active_users n (fun _ => w')) target
            = some u := by
          rw [dictGet_dictUpdate_ne _ _ (Ne.symm hn)]; exact hs
        have hsd : dictGet (dictDel (dictUpdate s.active_users n (fun _ => w')) n)
            target = some u := by
          rw [dictGet_dictDel_ne _ (Ne.symm hn)]; exact hsu
        by_cases hstill : User.still_in_channels w'
        · cases hrem : setRemove s.channels channel with
          | none => simp [UsersPlugin.partLoop, hpart, hstill, hrem, hsu]
          | some cs =>
            simp only [UsersPlugin.partLoop, hpart, hstill, hrem, if_true]
            exact ih _ hl' hsu
        · cases hrem : setRemove s.channels channel with
          | none => simp [UsersPlugin.partLoop, hpart, hstill, hrem, hsd]
          | some cs =>
            have hstill' : User.still_in_channels w' = false := by
              simpa using hstill
            simp only [UsersPlugin.partLoop, hpart, hstill', hrem,
              Bool.false_eq_true, if_false]
            refine ih _ hl' ?_
            exact hsd

/-- Claim C2: `part` for a tracked nick that does not occupy the named
channel raises (the `KeyError` from `set.remove` propagates, so the event
is not silently absorbed) and leaves that nick tracked with the very same
record, whether or not the nick happens to be the bot's own. -/
theorem part_contract_violation_reported (s : RegistryState)
    (nick channel : String) (u : User)
    (hu : get_user s nick = some u) (hch : channel ∉ u.channels) :
    (UsersPlugin.part s nick channel).raised = true ∧
    get_user (UsersPlugin.part s nick channel).state nick = some u := by
  unfold get_user at hu ⊢
  by_cases hb : nick = s.botNick
  · have hloop := partLoop_missing_channel channel nick u hch s.active_users s hu hu
    simp only [UsersPlugin.part, if_pos hb, hloop.1, if_true]
    exact ⟨trivial, hloop.2⟩
  · have hpartu : User.part u channel = none := by
      simp [User.part, setRemove, hch]
    simp [UsersPlugin.part, if_neg hb, hu, hpartu]

/-- Witness for C2: `dave` is tracked in `#a` only; `part("dave", "#z")`
raises and leaves dave's record intact. -/
theorem part_contract_violation_reported_witness :
    (get_user
      { botNick := "bot", identifying_method := "mask", channels := ["#a"],
        active_users :=
          [("dave", { nick := "dave", host := "h", channels := ["#a"], _id := "h" })] }
      "dave" = some { nick := "dave", host := "h", channels := ["#a"], _id := "h" } ∧
     "#z" ∉ ({ nick := "dave", host := "h", channels := ["#a"], _id := "h" } : User).channels) ∧
    ((UsersPlugin.part
      { botNick := "bot", identifying_method := "mask", channels := ["#a"],
        active_users :=
          [("dave", { nick := "dave", host := "h", channels := ["#a"], _id := "h" })] }
      "dave" "#z").raised = true ∧
     get_user (UsersPlugin.part
      { botNick := "bot", identifying_method := "mask", channels := ["#a"],
        active_users :=
          [("dave", { nick := "dave", host := "h", channels := ["#a"], _id := "h" })] }
      "dave" "#z").state "dave"
      = some { nick := "dave", host := "h", channels := ["#a"], _id := "h" }) :=
  ⟨⟨by decide, by decide⟩,
    part_contract_violation_reported
      { botNick := "bot", identifying_method := "mask", channels := ["#a"],
        active_users :=
          [("dave", { nick := "dave", host := "h", channels := ["#a"], _id := "h" })] }
      "dave" "#z"
      { nick := "dave", host := "h", channels := ["#a"], _id := "h" }
      (by decide) (by decide)⟩
